import Mathlib

/-!
Verification of `src/scripts/check-openssl.py`.

The script invokes `cargo tree -i openssl --workspace`, captures the
result, and classifies it into one of three outcomes (Forbidden, Absent,
UnexpectedError), printing a colorized verdict and setting the process
exit code.  We embed the script as pure functions over the captured
result of the external call and prove the spec's claims about it.
-/

/-- The three ANSI escape constants of the script's `Colors` enum
(`StrEnum`, so each member is identified with its string value). -/
inductive Colors where
  | GREEN
  | RED
  | RESET
deriving DecidableEq, Repr

/-- The string value of each `Colors` member: `"\033[92m"`, `"\033[91m"`,
`"\033[0m"` in the source (octal 33 = hex 1b, the ESC character). -/
def Colors.val : Colors → String
  | .GREEN => "\x1b[92m"
  | .RED => "\x1b[91m"
  | .RESET => "\x1b[0m"

/-- The single line emitted by `colored_print`: the Python source prints
`f"{color}{message}{Colors.RESET}"`, i.e. the color code, the message and
the reset code concatenated.  We model printed output as a list of lines,
so the trailing newline added by `print` is implicit. -/
def colored_print (message : String) (color : Colors) : String :=
  color.val ++ message ++ Colors.RESET.val

/-- The fields of the `subprocess.CompletedProcess` value the script
consumes: exit status (`returncode`, an `int` in Python, so possibly
negative when the child is killed by a signal), captured standard output
and captured standard error (both text, since `text=True`). -/
structure CompletedProcess where
  returncode : Int
  stdout : String
  stderr : String
deriving DecidableEq, Repr

/-- Does `pat` match at the head of `s`?  Helper for the substring test. -/
def matchesAt : List Char → List Char → Bool
  | [], _ => true
  | _ :: _, [] => false
  | p :: ps, c :: cs => p == c && matchesAt ps cs

/-- Does `pat` occur as a contiguous run somewhere in `s`? -/
def containsAux (pat : List Char) : List Char → Bool
  | [] => pat.isEmpty
  | c :: cs => matchesAt pat (c :: cs) || containsAux pat cs

/-- Python's substring operator `pat in s` on strings: true iff `pat`
occurs contiguously in `s` (the empty pattern occurs in every string). -/
def strContains (s pat : String) : Bool :=
  containsAux pat.data s.data

/-- The stderr substring the script tests with Python's `in` operator
(line 30 of the source). -/
def notFoundMsg : String :=
  "package ID specification `openssl` did not match any packages"

/-- The body of `check_openssl_dependency` after the external call, as a
pure function of the captured result.  First component: the lines printed
to standard output, in order.  Second component: the process exit code —
`sys.exit(1)` in the two error branches, the implicit `0` when the script
falls off the end of `main`. -/
def check_openssl_dependency (result : CompletedProcess) : List String × Nat :=
  if result.returncode = 0 then
    ([colored_print "Error: openssl is part of the dependencies tree" Colors.RED,
      result.stdout], 1)
  else if strContains result.stderr notFoundMsg then
    ([colored_print "Success: openssl is not part of the dependencies tree." Colors.GREEN], 0)
  else
    ([colored_print "Error: Unexpected error message." Colors.RED,
      result.stderr], 1)

/-- The three terminal outcomes of the checker. -/
inductive Outcome where
  | Forbidden
  | Absent
  | UnexpectedError
deriving DecidableEq, Repr

/-- The classification implicit in the branch structure of
`check_openssl_dependency` (lines 24–35 of the source): exit status `0`
means the dependency is present (Forbidden); otherwise the stderr
substring test separates confirmed absence from an unexpected error. -/
def classify (result : CompletedProcess) : Outcome :=
  if result.returncode = 0 then .Forbidden
  else if strContains result.stderr notFoundMsg then .Absent
  else .UnexpectedError

/-- The argument vector the script passes to `subprocess.run`
(line 19 of the source). -/
def cargoTreeArgs : List String :=
  ["cargo", "tree", "-i", "openssl", "--workspace"]

/-- The `check` keyword of `subprocess.run`: the script does not pass it,
so it takes the Python default `False`. -/
def runCheckFlag : Bool := false

/-- Python-stdlib semantics of `subprocess.run` with respect to raising:
it raises `CalledProcessError` on a non-zero exit status exactly when
`check=True` was passed; otherwise it returns the completed process. -/
def subprocess_run (check : Bool) (result : CompletedProcess) :
    Except String CompletedProcess :=
  if check && result.returncode != 0 then .error "CalledProcessError"
  else .ok result

/-- C6: the checker invokes exactly `cargo tree -i openssl --workspace`
with `check` left at its default `False`, so the invocation returns the
captured result for every exit status and never raises. -/
theorem C6_invocation :
    cargoTreeArgs = ["cargo", "tree", "-i", "openssl", "--workspace"] ∧
    ∀ result : CompletedProcess,
      subprocess_run runCheckFlag result = .ok result := by
  refine ⟨rfl, fun result => ?_⟩
  simp [subprocess_run, runCheckFlag]

/-- C1: whenever the external tool exits with status 0 the checker prints
the red forbidden-dependency line, then the captured stdout, and exits
with code 1. -/
theorem C1_forbidden (result : CompletedProcess)
    (h : result.returncode = 0) :
    check_openssl_dependency result =
      ([colored_print "Error: openssl is part of the dependencies tree" Colors.RED,
        result.stdout], 1) := by
  simp [check_openssl_dependency, h]

/-- Witness for C1 at the spec's Scenario A: exit 0, stdout
"openssl v0.10.0". -/
theorem C1_forbidden_witness :
    check_openssl_dependency ⟨0, "openssl v0.10.0", ""⟩ =
      ([colored_print "Error: openssl is part of the dependencies tree" Colors.RED,
        "openssl v0.10.0"], 1) :=
  C1_forbidden ⟨0, "openssl v0.10.0", ""⟩ rfl

/-- C2: whenever the external tool exits non-zero and its stderr contains
the did-not-match substring, the checker prints only the green success
line and exits with code 0. -/
theorem C2_absent (result : CompletedProcess)
    (h0 : result.returncode ≠ 0)
    (h1 : strContains result.stderr notFoundMsg = true) :
    check_openssl_dependency result =
      ([colored_print "Success: openssl is not part of the dependencies tree." Colors.GREEN], 0) := by
  simp [check_openssl_dependency, h0, h1]

/-- Witness for C2 at the spec's Scenario B: exit 1, stderr the cargo
error line containing the substring. -/
theorem C2_absent_witness :
    check_openssl_dependency
        ⟨1, "", "error: package ID specification `openssl` did not match any packages"⟩ =
      ([colored_print "Success: openssl is not part of the dependencies tree." Colors.GREEN], 0) :=
  C2_absent
    ⟨1, "", "error: package ID specification `openssl` did not match any packages"⟩
    (by decide) (by decide)

/-- C3: whenever the external tool exits non-zero and its stderr does not
contain the did-not-match substring, the checker prints the red
unexpected-error line, then the raw stderr, and exits with code 1. -/
theorem C3_unexpected (result : CompletedProcess)
    (h0 : result.returncode ≠ 0)
    (h1 : strContains result.stderr notFoundMsg = false) :
    check_openssl_dependency result =
      ([colored_print "Error: Unexpected error message." Colors.RED,
        result.stderr], 1) := by
  simp [check_openssl_dependency, h0, h1]

/-- Witness for C3 at the spec's Scenario C: exit 127, stderr
"command not found". -/
theorem C3_unexpected_witness :
    check_openssl_dependency ⟨127, "", "command not found"⟩ =
      ([colored_print "Error: Unexpected error message." Colors.RED,
        "command not found"], 1) :=
  C3_unexpected ⟨127, "", "command not found"⟩ (by decide) (by decide)

/-- C4: the classification is total and exhaustive — every captured
result is assigned exactly one outcome, and the three branch conditions
(exit 0; non-zero with the substring; non-zero without it) cover all
results and determine the outcome. -/
theorem C4_total_exhaustive (result : CompletedProcess) :
    (∃! o : Outcome, classify result = o) ∧
    ((result.returncode = 0 ∧ classify result = .Forbidden) ∨
     (result.returncode ≠ 0 ∧ strContains result.stderr notFoundMsg = true ∧
        classify result = .Absent) ∨
     (result.returncode ≠ 0 ∧ strContains result.stderr notFoundMsg = false ∧
        classify result = .UnexpectedError)) := by
  refine ⟨⟨classify result, rfl, fun o ho => ho.symm⟩, ?_⟩
  by_cases h0 : result.returncode = 0
  · exact Or.inl ⟨h0, by simp [classify, h0]⟩
  · by_cases h1 : strContains result.stderr notFoundMsg
    · exact Or.inr (Or.inl ⟨h0, h1, by simp [classify, h0, h1]⟩)
    · exact Or.inr (Or.inr ⟨h0, by simpa using h1, by simp [classify, h0, h1]⟩)

/-- C5: the checker is deterministic — two runs given the identical
captured result (same exit status, stdout and stderr) yield the identical
outcome, printed lines and exit code. -/
theorem C5_deterministic (r1 r2 : CompletedProcess)
    (hc : r1.returncode = r2.returncode)
    (ho : r1.stdout = r2.stdout)
    (he : r1.stderr = r2.stderr) :
    classify r1 = classify r2 ∧
    check_openssl_dependency r1 = check_openssl_dependency r2 := by
  have h : r1 = r2 := by cases r1; cases r2; simp_all
  subst h; exact ⟨rfl, rfl⟩

/-- Witness for C5 at a concrete result, compared with itself. -/
theorem C5_deterministic_witness :
    classify ⟨2, "out", "err"⟩ = classify ⟨2, "out", "err"⟩ ∧
    check_openssl_dependency ⟨2, "out", "err"⟩ =
      check_openssl_dependency ⟨2, "out", "err"⟩ :=
  C5_deterministic ⟨2, "out", "err"⟩ ⟨2, "out", "err"⟩ rfl rfl rfl

/-- C7: every status line is wrapped in ANSI codes — green for the
success line with exit code 0, red for the error lines with exit code 1 —
and any captured subprocess text printed beneath it is echoed verbatim,
uncolored. -/
theorem C7_ansi_colors (result : CompletedProcess) :
    ∃ msg : String,
      ((check_openssl_dependency result).1.head? =
          some ("\x1b[92m" ++ msg ++ "\x1b[0m") ∧
        (check_openssl_dependency result).2 = 0 ∧
        (check_openssl_dependency result).1.tail = []) ∨
      ((check_openssl_dependency result).1.head? =
          some ("\x1b[91m" ++ msg ++ "\x1b[0m") ∧
        (check_openssl_dependency result).2 = 1 ∧
        ((check_openssl_dependency result).1.tail = [result.stdout] ∨
         (check_openssl_dependency result).1.tail = [result.stderr])) := by
  unfold check_openssl_dependency
  by_cases h0 : result.returncode = 0
  · exact ⟨"Error: openssl is part of the dependencies tree",
      Or.inr (by simp [h0, colored_print, Colors.val])⟩
  · by_cases h1 : strContains result.stderr notFoundMsg
    · exact ⟨"Success: openssl is not part of the dependencies tree.",
        Or.inl (by simp [h0, h1, colored_print, Colors.val])⟩
    · exact ⟨"Error: Unexpected error message.",
        Or.inr (by simp [h0, h1, colored_print, Colors.val])⟩

/-- C8: the outcome and exit code never depend on the captured stdout —
two results agreeing on exit status and stderr classify identically and
exit identically — and outside the Forbidden branch even the printed
lines agree, so stdout influences only the text echoed when the
dependency is present. -/
theorem C8_stdout_independence (r1 r2 : CompletedProcess)
    (hc : r1.returncode = r2.returncode)
    (he : r1.stderr = r2.stderr) :
    classify r1 = classify r2 ∧
    (check_openssl_dependency r1).2 = (check_openssl_dependency r2).2 ∧
    (classify r1 ≠ .Forbidden →
      (check_openssl_dependency r1).1 = (check_openssl_dependency r2).1) := by
  unfold classify check_openssl_dependency
  rw [hc, he]
  by_cases h0 : r2.returncode = 0
  · simp [h0]
  · by_cases h1 : strContains r2.stderr notFoundMsg <;> simp [h0, h1, he]

/-- Witness for C8: exit 1, same stderr, stdout "a" versus stdout "b". -/
theorem C8_stdout_independence_witness :
    classify ⟨1, "a", "boom"⟩ = classify ⟨1, "b", "boom"⟩ ∧
    (check_openssl_dependency ⟨1, "a", "boom"⟩).2 =
      (check_openssl_dependency ⟨1, "b", "boom"⟩).2 ∧
    (classify ⟨1, "a", "boom"⟩ ≠ .Forbidden →
      (check_openssl_dependency ⟨1, "a", "boom"⟩).1 =
        (check_openssl_dependency ⟨1, "b", "boom"⟩).1) :=
  C8_stdout_independence ⟨1, "a", "boom"⟩ ⟨1, "b", "boom"⟩ rfl rfl

/-- C9: in the Absent outcome the green success line is the only line
printed; the captured stdout and stderr are discarded. -/
theorem C9_absent_single_line (result : CompletedProcess)
    (h : classify result = .Absent) :
    (check_openssl_dependency result).1 =
      [colored_print "Success: openssl is not part of the dependencies tree." Colors.GREEN] := by
  unfold classify at h
  by_cases h0 : result.returncode = 0
  · simp [h0] at h
  · by_cases h1 : strContains result.stderr notFoundMsg
    · simp [check_openssl_dependency, h0, h1]
    · simp [h0, h1] at h

/-- Witness for C9: exit 101, stderr is exactly the did-not-match
message, stdout nonempty yet discarded. -/
theorem C9_absent_single_line_witness :
    (check_openssl_dependency
        ⟨101, "stray output", "package ID specification `openssl` did not match any packages"⟩).1 =
      [colored_print "Success: openssl is not part of the dependencies tree." Colors.GREEN] :=
  C9_absent_single_line
    ⟨101, "stray output", "package ID specification `openssl` did not match any packages"⟩
    (by decide)

/-- C10: only an exit status exactly 0 yields the Forbidden outcome;
every other status — negative signal codes included — is classified
solely by the stderr substring test. -/
theorem C10_zero_only_forbidden (result : CompletedProcess) :
    (classify result = .Forbidden ↔ result.returncode = 0) ∧
    (result.returncode ≠ 0 →
      classify result =
        (if strContains result.stderr notFoundMsg then .Absent
         else .UnexpectedError)) := by
  unfold classify
  by_cases h0 : result.returncode = 0
  · simp [h0]
  · by_cases h1 : strContains result.stderr notFoundMsg <;> simp [h0, h1]

/-- Witness for C10: a negative return code (child killed by SIGKILL,
reported as -9) with unrecognized stderr is not Forbidden and follows the
substring test. -/
theorem C10_zero_only_forbidden_witness :
    (classify ⟨-9, "", "killed"⟩ = .Forbidden ↔ (⟨-9, "", "killed"⟩ : CompletedProcess).returncode = 0) ∧
    ((⟨-9, "", "killed"⟩ : CompletedProcess).returncode ≠ 0 →
      classify ⟨-9, "", "killed"⟩ =
        (if strContains (⟨-9, "", "killed"⟩ : CompletedProcess).stderr notFoundMsg then .Absent
         else .UnexpectedError)) :=
  C10_zero_only_forbidden ⟨-9, "", "killed"⟩
